/-
  Verification development for the data-retention lifecycle pipeline
  (src/compliance/dags/data_retention_dag.py).

  Shallow embedding: each Airflow task callable becomes a Lean function over
  explicit inputs.  The external Postgres store is modelled by explicit
  oracles: the scanner sees each table as a list of created_at timestamps (or
  a query error), the hold lookup returns either the hold rows or an error,
  the anonymization UPDATE either succeeds or raises a per-table error, and
  the deletion executor sees, per table, the two COUNT(*) query results (the
  live expected count and the post-delete remaining count) or an error.
  Timestamps are naturals measured in days; `created_at < NOW() - INTERVAL
  'r days'` becomes `created_at + r < now`.  Since every SQL statement in the
  source embeds its own NOW(), each query call is given its own clock
  reading.
-/
import Mathlib

namespace DataRetention

/-- One row of the legal_holds table (columns used by the source:
table_name, record_id, hold_reason, created_by, created_at, status,
expiration_date). -/
structure LegalHold where
  table_name : String
  record_id : Nat
  hold_reason : String
  created_by : String
  created_at : Nat
  status : String
  expiration_date : Option Nat
deriving DecidableEq

/-- The per-table value stored in the `expired_data` mapping produced by
`identify_expired_data`: count, MIN(created_at), MAX(created_at) of the
expired rows, and the retention period used. -/
structure ExpirationRecord where
  count : Nat
  oldest_record : Option Nat
  newest_expired : Option Nat
  retention_days : Nat
deriving DecidableEq

/-- The fixed retention_policies dictionary of `identify_expired_data`. -/
def retention_policies : List (String × Nat) :=
  [("user_activity_logs", 90), ("session_data", 30), ("audit_logs", 2555),
   ("user_profiles", 1095), ("transaction_logs", 2555), ("marketing_data", 365),
   ("support_tickets", 1095), ("backup_data", 365), ("temp_files", 7),
   ("cache_data", 1)]

/-- One table scan query of `identify_expired_data`: COUNT, MIN(created_at)
and MAX(created_at) over rows with `created_at < now - retention` days; the
table contributes an entry only when the count is positive. -/
def scanTable (rows : List Nat) (now retention : Nat) : Option ExpirationRecord :=
  let ex := rows.filter (fun c => decide (c + retention < now))
  if 0 < ex.length then
    some { count := ex.length, oldest_record := ex.min?,
           newest_expired := ex.max?, retention_days := retention }
  else none

/-- The scan loop of `identify_expired_data`.  `db` answers each table's
query with its rows or an error (the per-table try/except: a failing table is
logged and omitted).  `clocks i` is the NOW() read by the i-th query issued,
since the source embeds NOW() in each SQL statement. -/
def scanPolicies (db : String → Except String (List Nat)) (clocks : Nat → Nat) :
    Nat → List (String × Nat) → List (String × ExpirationRecord)
  | _, [] => []
  | i, (t, r) :: ps =>
    match db t with
    | Except.error _ => scanPolicies db clocks (i + 1) ps
    | Except.ok rows =>
      match scanTable rows (clocks i) r with
      | some rec => (t, rec) :: scanPolicies db clocks (i + 1) ps
      | none => scanPolicies db clocks (i + 1) ps

/-- Task `identify_expired_data`: scan every policy table, starting with
query index 0. -/
def identify_expired_data (db : String → Except String (List Nat))
    (clocks : Nat → Nat) (policies : List (String × Nat)) :
    List (String × ExpirationRecord) :=
  scanPolicies db clocks 0 policies

/-- The WHERE clause of the hold query in `check_legal_holds`:
`status = 'ACTIVE' AND (expiration_date IS NULL OR expiration_date > NOW())`. -/
def holdActive (now : Nat) (h : LegalHold) : Bool :=
  h.status == "ACTIVE" &&
    (match h.expiration_date with
     | none => true
     | some e => decide (now < e))

/-- The rows returned by the legal-hold query of `check_legal_holds`. -/
def activeHoldQuery (now : Nat) (holds : List LegalHold) : List LegalHold :=
  holds.filter (holdActive now)

/-- The filter loop of `check_legal_holds`: keep an expired-data entry only
when its table_name is not a key of the legal_holds mapping, i.e. no active
hold row names that table. -/
def check_legal_holds (now : Nat) (holds : List LegalHold)
    (expired : List (String × ExpirationRecord)) :
    List (String × ExpirationRecord) :=
  expired.filter
    (fun p => !((activeHoldQuery now holds).any (fun h => h.table_name == p.1)))

/-- The anonymization_config dictionary of `anonymize_before_deletion`. -/
def anonymization_config : List (String × List String) :=
  [("user_profiles", ["email", "first_name", "last_name", "phone", "address"]),
   ("user_activity_logs", ["user_id", "ip_address", "user_agent"]),
   ("transaction_logs", ["user_id", "payment_method", "billing_address"]),
   ("support_tickets", ["user_id", "email", "phone", "description"])]

/-- A row of a data table as seen by the anonymization UPDATE: its
created_at, its named columns, and the anonymized_at /
anonymization_reason marker columns. -/
structure DataRecord where
  created_at : Nat
  fields : List (String × String)
  anonymized_at : Option Nat
  anonymization_reason : Option String
deriving DecidableEq

/-- The SET replacement value chosen per field name in
`anonymize_before_deletion` (email gets a synthesized placeholder built
from a random uuid, names a fixed token, phone and ip_address fixed
null-like values, everything else 'ANONYMIZED'). -/
def replacementValue (uuid : String) (field : String) : String :=
  if field = "email" then "anonymized_" ++ uuid ++ "@deleted.local"
  else if field = "first_name" ∨ field = "last_name" then "DELETED"
  else if field = "phone" then "000-000-0000"
  else if field = "ip_address" then "0.0.0.0"
  else "ANONYMIZED"

/-- Assign one column of a row. -/
def setField (fs : List (String × String)) (name v : String) :
    List (String × String) :=
  fs.map (fun q => if q.1 = name then (q.1, v) else q)

/-- Effect of the UPDATE's SET list on one row: every configured field is
rewritten and the row is stamped with `anonymized_at = NOW()` and the fixed
reason tag. -/
def anonymizeRecord (cfgFields : List String) (now : Nat) (uuid : String)
    (r : DataRecord) : DataRecord :=
  { r with
    fields := cfgFields.foldl
      (fun fs f => setField fs f (replacementValue uuid f)) r.fields
    anonymized_at := some now
    anonymization_reason := some "DATA_RETENTION_POLICY" }

/-- Row-level semantics of the anonymization UPDATE over a table: a row is
rewritten iff `created_at < NOW() - retention days AND anonymized_at IS
NULL`; `uuidGen i` is the uuid generated for the i-th row. -/
def anonymizeRows (cfgFields : List String) (now retention : Nat)
    (uuidGen : Nat → String) : Nat → List DataRecord → List DataRecord
  | _, [] => []
  | i, r :: rs =>
    (if r.created_at + retention < now ∧ r.anonymized_at = none
     then anonymizeRecord cfgFields now (uuidGen i) r else r) ::
    anonymizeRows cfgFields now retention uuidGen (i + 1) rs

/-- One run of the anonymization UPDATE on a whole table. -/
def anonymizeTable (cfgFields : List String) (now retention : Nat)
    (uuidGen : Nat → String) (rows : List DataRecord) : List DataRecord :=
  anonymizeRows cfgFields now retention uuidGen 0 rows

/-- The per-table entry of the `anonymization_results` mapping: the success
entry {anonymized: True, fields: ...} or the failure entry
{anonymized: False, error: ...}. -/
structure AnonymizationOutcome where
  anonymized : Bool
  fields : List String
  error : Option String
deriving DecidableEq

/-- The per-table body of the `anonymize_before_deletion` loop: tables
without an anonymization_config entry (or with an empty field list, the
`if set_clauses:` guard) contribute nothing; otherwise the UPDATE either
succeeds (`upd t = none`) or raises error e (`upd t = some e`), and the
matching result entry is recorded. -/
def anonEntry (cfg : List (String × List String)) (upd : String → Option String)
    (p : String × ExpirationRecord) : Option (String × AnonymizationOutcome) :=
  match cfg.lookup p.1 with
  | none => none
  | some fs =>
    if fs.isEmpty then none
    else
      match upd p.1 with
      | none => some (p.1, { anonymized := true, fields := fs, error := none })
      | some e => some (p.1, { anonymized := false, fields := [], error := some e })

/-- Task `anonymize_before_deletion`: fold the per-table body over the
filtered expired-data mapping; a per-table failure is caught and recorded,
never aborting the loop. -/
def anonymize_before_deletion (cfg : List (String × List String))
    (upd : String → Option String)
    (filtered : List (String × ExpirationRecord)) :
    List (String × AnonymizationOutcome) :=
  filtered.filterMap (anonEntry cfg upd)

/-- One element of the manifest's tables_affected list. -/
structure TableManifestEntry where
  table_name : String
  records_to_delete : Nat
  retention_period_days : Nat
  oldest_record : Option Nat
  newest_expired : Option Nat
  anonymized_before_deletion : Bool
deriving DecidableEq

/-- The manifest dictionary built by `create_deletion_manifest`. -/
structure Manifest where
  deletion_date : Nat
  deletion_reason : String
  tables_affected : List TableManifestEntry
  total_records_to_delete : Nat
  anonymization_performed : Bool
  legal_holds_checked : Bool
  manifest_id : Nat
deriving DecidableEq

/-- Task `create_deletion_manifest`: one entry per filtered table;
`anonymized_before_deletion` is the membership test
`table_name in anonymization_results`; the total accumulates the
per-table counts; `mid` is the id the INSERT ... RETURNING id assigns. -/
def create_deletion_manifest (now mid : Nat)
    (filtered : List (String × ExpirationRecord))
    (anonResults : List (String × AnonymizationOutcome)) : Manifest :=
  { deletion_date := now
    deletion_reason := "DATA_RETENTION_POLICY"
    tables_affected := filtered.map (fun p =>
      { table_name := p.1
        records_to_delete := p.2.count
        retention_period_days := p.2.retention_days
        oldest_record := p.2.oldest_record
        newest_expired := p.2.newest_expired
        anonymized_before_deletion := (anonResults.lookup p.1).isSome })
    total_records_to_delete := filtered.foldl (fun acc p => acc + p.2.count) 0
    anonymization_performed := !anonResults.isEmpty
    legal_holds_checked := true
    manifest_id := mid }

/-- The per-table entry of the `deletion_results` mapping recorded by
`execute_data_deletion`.  On the error path the source dict has only the
success and error keys; downstream reads use .get with defaults 0/False,
which the zero fields here reproduce. -/
structure DeletionOutcome where
  expected_deletions : Nat
  actual_deletions : Int
  success : Bool
  remaining_records : Nat
  error : Option String
deriving DecidableEq

/-- What the store does for one table of `execute_data_deletion`: the first
COUNT(*) (the live expected count) and the COUNT(*) re-run after the DELETE
(the remaining count), or an exception raised by any of the three
statements. -/
inductive DeletionStoreResult where
  | counts (expected remaining : Nat)
  | failure (err : String)
deriving DecidableEq

/-- The per-table body of the `execute_data_deletion` loop: count; if the
count is positive, delete, re-count, and record
{expected, actual = expected - remaining, success = (remaining == 0),
remaining}; if the count is zero record the trivial all-zero success; a
caught exception records {success: False, error}. -/
def deleteOneTable (store : DeletionStoreResult) : DeletionOutcome :=
  match store with
  | DeletionStoreResult.failure e =>
    { expected_deletions := 0, actual_deletions := 0, success := false,
      remaining_records := 0, error := some e }
  | DeletionStoreResult.counts expected remaining =>
    if 0 < expected then
      { expected_deletions := expected
        actual_deletions := (expected : Int) - (remaining : Int)
        success := remaining == 0
        remaining_records := remaining
        error := none }
    else
      { expected_deletions := 0, actual_deletions := 0, success := true,
        remaining_records := 0, error := none }

/-- Task `execute_data_deletion`, deletion part: every table of the filtered
mapping is attempted; a failure in one table never removes another from the
loop. -/
def execute_data_deletion (store : String → DeletionStoreResult)
    (filtered : List (String × ExpirationRecord)) :
    List (String × DeletionOutcome) :=
  filtered.map (fun p => (p.1, deleteOneTable (store p.1)))

/-- The `total_deleted` accumulator of `execute_data_deletion` (only the
positive-count branch adds its actual_deleted; the other branches
contribute 0, exactly as the zero fields record). -/
def totalDeleted (results : List (String × DeletionOutcome)) : Int :=
  (results.map (fun p => p.2.actual_deletions)).sum

/-- The status written back to the manifest row (line 326 of the source):
COMPLETED iff `all(r.get('success', False) ...)`, else PARTIAL. -/
def manifestStatusOf (results : List (String × DeletionOutcome)) : String :=
  if results.all (fun p => p.2.success) then "COMPLETED" else "PARTIAL"

/-- The compliance_status of `generate_compliance_report` (line 361 of the
source): COMPLIANT iff `all(r.get('success', False) ...)`, else
NEEDS_ATTENTION. -/
def complianceStatusOf (results : List (String × DeletionOutcome)) : String :=
  if results.all (fun p => p.2.success) then "COMPLIANT" else "NEEDS_ATTENTION"

/-- The data_deletion_manifests row: the columns set by the INSERT of
`create_deletion_manifest` and the columns set by the UPDATE of
`execute_data_deletion`. -/
structure ManifestRow where
  deletion_date : Nat
  manifest_data : Manifest
  total_records : Nat
  status : String
  deletion_results : Option (List (String × DeletionOutcome))
  actual_deletions : Option Int
  completed_at : Option Nat
deriving DecidableEq

/-- The INSERT of `create_deletion_manifest`: (deletion_date, manifest,
total_records_to_delete, 'PENDING'); the execution-result columns are not
yet set. -/
def insertManifestRow (now : Nat) (m : Manifest) : ManifestRow :=
  { deletion_date := now
    manifest_data := m
    total_records := m.total_records_to_delete
    status := "PENDING"
    deletion_results := none
    actual_deletions := none
    completed_at := none }

/-- The UPDATE of `execute_data_deletion`:
`SET status = %s, deletion_results = %s, actual_deletions = %s,
completed_at = NOW()` on the row the INSERT created. -/
def updateManifestRow (row : ManifestRow) (status : String)
    (results : List (String × DeletionOutcome)) (total : Int) (now : Nat) :
    ManifestRow :=
  { row with
    status := status
    deletion_results := some results
    actual_deletions := some total
    completed_at := some now }

/-- The report dictionary built by `generate_compliance_report`. -/
structure ComplianceReport where
  report_date : Nat
  total_tables_processed : Nat
  total_records_deleted : Int
  successful_deletions : Nat
  failed_deletions : Nat
  tables_with_holds : Nat
  total_holds : Nat
  compliance_status : String
  manifest_id : Nat
deriving DecidableEq

/-- Task `generate_compliance_report`: pure aggregation of the deletion
results and the hold mapping (whose dict keys are the distinct table names
of the active hold rows, and whose values partition those rows). -/
def generate_compliance_report (now : Nat) (m : Manifest)
    (results : List (String × DeletionOutcome))
    (activeHolds : List LegalHold) : ComplianceReport :=
  { report_date := now
    total_tables_processed := results.length
    total_records_deleted := (results.map (fun p => p.2.actual_deletions)).sum
    successful_deletions := (results.filter (fun p => p.2.success)).length
    failed_deletions := (results.filter (fun p => !p.2.success)).length
    tables_with_holds := ((activeHolds.map (fun h => h.table_name)).dedup).length
    total_holds := activeHolds.length
    compliance_status := complianceStatusOf results
    manifest_id := m.manifest_id }

/-- All external inputs of one run of the DAG: the scanner's store and
per-query clocks, the hold lookup (which may fail), the anonymization
UPDATE results, the ids and timestamps assigned by the persistence layer,
and the executor's per-table store behaviour. -/
structure PipelineInput where
  db : String → Except String (List Nat)
  policies : List (String × Nat)
  scanClocks : Nat → Nat
  holdLookup : Except String (List LegalHold)
  holdNow : Nat
  anonCfg : List (String × List String)
  anonUpd : String → Option String
  manifestNow : Nat
  manifestId : Nat
  execStore : String → DeletionStoreResult
  updateNow : Nat
  reportNow : Nat

/-- The observable outcome of one DAG run: what reached the persistence
layer and which deletions were executed. -/
structure RunResult where
  persistedManifests : List ManifestRow
  persistedReports : List ComplianceReport
  deletionsExecuted : List (String × DeletionOutcome)
  failed : Option String
deriving DecidableEq

/-- One run of the DAG along its task dependency chain
identify >> check_legal_holds >> anonymize >> create_manifest >>
execute_deletion >> report.  `check_legal_holds` has no handler around the
hold query, so a hold-lookup error fails that task and, under the default
all_success trigger rule, every downstream task is skipped: nothing is
persisted and nothing is deleted. -/
def runPipeline (inp : PipelineInput) : RunResult :=
  let expired := identify_expired_data inp.db inp.scanClocks inp.policies
  match inp.holdLookup with
  | Except.error e =>
    { persistedManifests := [], persistedReports := [],
      deletionsExecuted := [], failed := some e }
  | Except.ok holds =>
    let active := activeHoldQuery inp.holdNow holds
    let filtered := check_legal_holds inp.holdNow holds expired
    let anonRes := anonymize_before_deletion inp.anonCfg inp.anonUpd filtered
    let m := create_deletion_manifest inp.manifestNow inp.manifestId filtered anonRes
    let row := insertManifestRow inp.manifestNow m
    let results := execute_data_deletion inp.execStore filtered
    let row2 := updateManifestRow row (manifestStatusOf results) results
      (totalDeleted results) inp.updateNow
    let rep := generate_compliance_report inp.reportNow m results active
    { persistedManifests := [row2], persistedReports := [rep],
      deletionsExecuted := results, failed := none }

/-! Helper lemmas shared by the claim theorems. -/

/-- The manifest total accumulator is the sum of the per-table counts. -/
theorem foldl_count_eq_sum (filtered : List (String × ExpirationRecord)) :
    ∀ a : Nat, filtered.foldl (fun acc p => acc + p.2.count) a =
      a + (filtered.map (fun p => p.2.count)).sum := by
  induction filtered with
  | nil => intro a; simp
  | cons q qs ih =>
    intro a
    simp only [List.foldl_cons, List.map_cons, List.sum_cons, ih, Nat.add_assoc]

/-- The deletion executor records an outcome for exactly the tables of the
filtered mapping, in order. -/
theorem execute_keys (store : String → DeletionStoreResult)
    (l : List (String × ExpirationRecord)) :
    (execute_data_deletion store l).map Prod.fst = l.map Prod.fst := by
  unfold execute_data_deletion
  rw [List.map_map]
  rfl

/-- The manifest lists exactly the tables of the filtered mapping. -/
theorem manifest_table_names (now mid : Nat)
    (filtered : List (String × ExpirationRecord))
    (anonResults : List (String × AnonymizationOutcome)) :
    (create_deletion_manifest now mid filtered anonResults).tables_affected.map
      (fun en => en.table_name) = filtered.map Prod.fst := by
  unfold create_deletion_manifest
  rw [List.map_map]
  rfl

/-- Claim C4: after execution the manifest's status is COMPLETED if and only
if every recorded per-category DeletionOutcome has success = true; in every
other case the status is PARTIAL. -/
theorem c4_manifest_status_completed_iff
    (results : List (String × DeletionOutcome)) :
    (manifestStatusOf results = "COMPLETED" ↔
      ∀ p ∈ results, p.2.success = true) ∧
    (¬ (∀ p ∈ results, p.2.success = true) →
      manifestStatusOf results = "PARTIAL") := by
  have hall := List.all_eq_true (l := results) (p := fun p => p.2.success)
  unfold manifestStatusOf
  split
  next h =>
    have h2 : ∀ p ∈ results, p.2.success = true := hall.mp h
    exact ⟨⟨fun _ => h2, fun _ => rfl⟩, fun hc => absurd h2 hc⟩
  next h =>
    constructor
    · constructor
      · intro hc
        exact absurd hc (by decide)
      · intro hc
        exact absurd (hall.mpr hc) h
    · intro _
      rfl

/-- Witness for C4 at a concrete mixed outcome set. -/
theorem c4_manifest_status_witness :
    (manifestStatusOf
        [("audit_logs",
          ({ expected_deletions := 10, actual_deletions := 8, success := false,
             remaining_records := 2, error := none } : DeletionOutcome))] =
      "COMPLETED" ↔
      ∀ p ∈ [("audit_logs",
          ({ expected_deletions := 10, actual_deletions := 8, success := false,
             remaining_records := 2, error := none } : DeletionOutcome))],
        p.2.success = true) ∧
    (¬ (∀ p ∈ [("audit_logs",
          ({ expected_deletions := 10, actual_deletions := 8, success := false,
             remaining_records := 2, error := none } : DeletionOutcome))],
        p.2.success = true) →
      manifestStatusOf
        [("audit_logs",
          ({ expected_deletions := 10, actual_deletions := 8, success := false,
             remaining_records := 2, error := none } : DeletionOutcome))] =
      "PARTIAL") :=
  c4_manifest_status_completed_iff _

/-- Claim C5: the compliance report's status is COMPLIANT exactly when the
manifest's final status is COMPLETED, and NEEDS_ATTENTION exactly when it is
PARTIAL — the two status computations are the same predicate over the same
outcome set. -/
theorem c5_report_status_mirrors_manifest
    (results : List (String × DeletionOutcome)) :
    (complianceStatusOf results = "COMPLIANT" ↔
      manifestStatusOf results = "COMPLETED") ∧
    (complianceStatusOf results = "NEEDS_ATTENTION" ↔
      manifestStatusOf results = "PARTIAL") := by
  unfold complianceStatusOf manifestStatusOf
  split
  · refine ⟨by simp, ?_⟩
    constructor
    · intro hc; exact absurd hc (by decide)
    · intro hc; exact absurd hc (by decide)
  · refine ⟨?_, by simp⟩
    constructor
    · intro hc; exact absurd hc (by decide)
    · intro hc; exact absurd hc (by decide)

/-- Witness for C5 at a concrete outcome set. -/
theorem c5_report_status_witness :
    (complianceStatusOf
        [("session_data",
          ({ expected_deletions := 3, actual_deletions := 3, success := true,
             remaining_records := 0, error := none } : DeletionOutcome))] =
      "COMPLIANT" ↔
      manifestStatusOf
        [("session_data",
          ({ expected_deletions := 3, actual_deletions := 3, success := true,
             remaining_records := 0, error := none } : DeletionOutcome))] =
      "COMPLETED") ∧
    (complianceStatusOf
        [("session_data",
          ({ expected_deletions := 3, actual_deletions := 3, success := true,
             remaining_records := 0, error := none } : DeletionOutcome))] =
      "NEEDS_ATTENTION" ↔
      manifestStatusOf
        [("session_data",
          ({ expected_deletions := 3, actual_deletions := 3, success := true,
             remaining_records := 0, error := none } : DeletionOutcome))] =
      "PARTIAL") :=
  c5_report_status_mirrors_manifest _

/-- Claim C9: the manifest's total_records_to_delete is fixed at creation as
the sum of the per-category expired counts, the INSERT copies it into the
row's total_records column, and the post-execution UPDATE changes only the
status and result columns, leaving total_records, the manifest data and the
creation date untouched. -/
theorem c9_manifest_total_frame (row : ManifestRow) (st : String)
    (results : List (String × DeletionOutcome)) (tot : Int) (now2 : Nat)
    (mnow mid : Nat) (filtered : List (String × ExpirationRecord))
    (anonRes : List (String × AnonymizationOutcome)) (m : Manifest) :
    (updateManifestRow row st results tot now2).total_records =
      row.total_records ∧
    (updateManifestRow row st results tot now2).manifest_data =
      row.manifest_data ∧
    (updateManifestRow row st results tot now2).deletion_date =
      row.deletion_date ∧
    (updateManifestRow row st results tot now2).status = st ∧
    (updateManifestRow row st results tot now2).deletion_results =
      some results ∧
    (updateManifestRow row st results tot now2).actual_deletions = some tot ∧
    (insertManifestRow mnow m).total_records = m.total_records_to_delete ∧
    (create_deletion_manifest mnow mid filtered anonRes).total_records_to_delete =
      (filtered.map (fun p => p.2.count)).sum := by
  refine ⟨rfl, rfl, rfl, rfl, rfl, rfl, rfl, ?_⟩
  unfold create_deletion_manifest
  simpa using foldl_count_eq_sum filtered 0

/-- Claim C6: per category the Deletion Executor counts first; a positive
live count triggers delete-then-recount and records
actual = expected - remaining with success exactly when nothing remains; a
zero live count records the trivial all-zero success, and the outcome is
recorded in the deletion_results mapping for that table. -/
theorem c6_executor_per_category (store : String → DeletionStoreResult)
    (filtered : List (String × ExpirationRecord))
    (p : String × ExpirationRecord) (e r : Nat)
    (hp : p ∈ filtered) (hs : store p.1 = DeletionStoreResult.counts e r) :
    ((p.1, deleteOneTable (store p.1)) ∈ execute_data_deletion store filtered) ∧
    (0 < e → deleteOneTable (store p.1) =
      { expected_deletions := e, actual_deletions := (e : Int) - (r : Int),
        success := r == 0, remaining_records := r, error := none }) ∧
    (e = 0 → deleteOneTable (store p.1) =
      { expected_deletions := 0, actual_deletions := 0, success := true,
        remaining_records := 0, error := none }) := by
  refine ⟨List.mem_map_of_mem _ hp, ?_, ?_⟩
  · intro he
    rw [hs]
    simp [deleteOneTable, he]
  · intro he
    subst he
    rw [hs]
    simp [deleteOneTable]

/-- Witness for C6: Scenario D's store (10 expected, 2 remaining). -/
theorem c6_executor_witness :
    (("audit_logs",
        ({ count := 10, oldest_record := none, newest_expired := none,
           retention_days := 2555 } : ExpirationRecord)) ∈
      [("audit_logs",
        ({ count := 10, oldest_record := none, newest_expired := none,
           retention_days := 2555 } : ExpirationRecord))]) ∧
    ((("audit_logs",
        deleteOneTable (DeletionStoreResult.counts 10 2)) ∈
      execute_data_deletion (fun _ => DeletionStoreResult.counts 10 2)
        [("audit_logs",
          ({ count := 10, oldest_record := none, newest_expired := none,
             retention_days := 2555 } : ExpirationRecord))]) ∧
    (0 < 10 → deleteOneTable (DeletionStoreResult.counts 10 2) =
      { expected_deletions := 10, actual_deletions := (10 : Int) - (2 : Int),
        success := 2 == 0, remaining_records := 2, error := none }) ∧
    (10 = 0 → deleteOneTable (DeletionStoreResult.counts 10 2) =
      { expected_deletions := 0, actual_deletions := 0, success := true,
        remaining_records := 0, error := none })) :=
  ⟨by decide,
   c6_executor_per_category (fun _ => DeletionStoreResult.counts 10 2)
     [("audit_logs",
       ({ count := 10, oldest_record := none, newest_expired := none,
          retention_days := 2555 } : ExpirationRecord))]
     ("audit_logs",
       ({ count := 10, oldest_record := none, newest_expired := none,
          retention_days := 2555 } : ExpirationRecord)) 10 2 (by decide) rfl⟩

/-- A row rewritten by the anonymization UPDATE carries the marker. -/
theorem anonymizeRecord_marker (cfgFields : List String) (now : Nat)
    (uuid : String) (r : DataRecord) :
    (anonymizeRecord cfgFields now uuid r).anonymized_at = some now := rfl

/-- A second anonymization pass over the output of a first pass (same clock,
any fresh uuids) changes no row: every row the first pass rewrote now fails
the `anonymized_at IS NULL` guard, and every row it skipped fails the guard
for the same reason it already did. -/
theorem anonymizeRows_second_pass (cfgFields : List String) (now ret : Nat)
    (g1 g2 : Nat → String) :
    ∀ (i : Nat) (rows : List DataRecord),
      anonymizeRows cfgFields now ret g2 i
          (anonymizeRows cfgFields now ret g1 i rows) =
        anonymizeRows cfgFields now ret g1 i rows := by
  intro i rows
  induction rows generalizing i with
  | nil => rfl
  | cons r rs ih =>
    simp only [anonymizeRows]
    split
    next h =>
      have hm : ¬ ((anonymizeRecord cfgFields now (g1 i) r).created_at + ret < now ∧
          (anonymizeRecord cfgFields now (g1 i) r).anonymized_at = none) := by
        intro hc
        have h2 := hc.2
        rw [anonymizeRecord_marker] at h2
        exact Option.noConfusion h2
      rw [if_neg hm, ih]
    next h =>
      rw [ih]

/-- Claim C8: running the Anonymizer a second time on the state produced by
a first run changes zero rows; every record rewritten by the first run
carries the anonymization marker, which is exactly what the second run's
guard skips. -/
theorem c8_anonymizer_idempotent (cfgFields : List String) (now ret : Nat)
    (g1 g2 : Nat → String) (rows : List DataRecord) :
    anonymizeTable cfgFields now ret g2 (anonymizeTable cfgFields now ret g1 rows) =
      anonymizeTable cfgFields now ret g1 rows ∧
    ∀ (fs : List String) (u : String) (r : DataRecord),
      (anonymizeRecord fs now u r).anonymized_at = some now :=
  ⟨anonymizeRows_second_pass cfgFields now ret g1 g2 0 rows,
   fun fs u r => anonymizeRecord_marker fs now u r⟩

/-- Characterization of the hold query's WHERE clause. -/
theorem holdActive_iff (now : Nat) (h : LegalHold) :
    holdActive now h = true ↔
      h.status = "ACTIVE" ∧
        (h.expiration_date = none ∨
          ∃ e, h.expiration_date = some e ∧ now < e) := by
  obtain ⟨tn, rid, hr, cb, ca, st, ed⟩ := h
  cases ed with
  | none => simp [holdActive]
  | some e => simp [holdActive]

/-- Claim C10: an expired-data entry survives the hold filter exactly when
no hold row names its table with status 'ACTIVE' and an absent or future
expiration; rows with any other status never suppress a table. -/
theorem c10_only_active_holds_suppress (now : Nat) (holds : List LegalHold)
    (expired : List (String × ExpirationRecord))
    (p : String × ExpirationRecord) (hp : p ∈ expired) :
    p ∈ check_legal_holds now holds expired ↔
      ¬ ∃ h ∈ holds, h.table_name = p.1 ∧ h.status = "ACTIVE" ∧
        (h.expiration_date = none ∨
          ∃ e, h.expiration_date = some e ∧ now < e) := by
  unfold check_legal_holds activeHoldQuery
  rw [List.mem_filter]
  simp only [hp, true_and, Bool.not_eq_true', List.any_eq_false,
    List.mem_filter]
  constructor
  · rintro hall ⟨h, hmem, htab, hstat, hexp⟩
    have hact : holdActive now h = true :=
      (holdActive_iff now h).mpr ⟨hstat, hexp⟩
    have := hall h ⟨hmem, hact⟩
    simp [htab] at this
  · intro hno h hh
    rcases hh with ⟨hmem, hact⟩
    rcases (holdActive_iff now h).mp hact with ⟨hstat, hexp⟩
    by_contra hb
    rw [beq_iff_eq] at hb
    exact hno ⟨h, hmem, hb, hstat, hexp⟩

/-- Witness for C10: a RELEASED hold with no expiration does not suppress
its table, so the entry survives the filter. -/
theorem c10_only_active_holds_witness :
    (("user_profiles",
        ({ count := 5, oldest_record := none, newest_expired := none,
           retention_days := 1095 } : ExpirationRecord)) ∈
      [("user_profiles",
        ({ count := 5, oldest_record := none, newest_expired := none,
           retention_days := 1095 } : ExpirationRecord))]) ∧
    (("user_profiles",
        ({ count := 5, oldest_record := none, newest_expired := none,
           retention_days := 1095 } : ExpirationRecord)) ∈
      check_legal_holds 100
        [{ table_name := "user_profiles", record_id := 1,
           hold_reason := "litigation", created_by := "counsel",
           created_at := 0, status := "RELEASED", expiration_date := none }]
        [("user_profiles",
          ({ count := 5, oldest_record := none, newest_expired := none,
             retention_days := 1095 } : ExpirationRecord))] ↔
      ¬ ∃ h ∈ [({ table_name := "user_profiles", record_id := 1,
                  hold_reason := "litigation", created_by := "counsel",
                  created_at := 0, status := "RELEASED",
                  expiration_date := none } : LegalHold)],
        h.table_name = "user_profiles" ∧ h.status = "ACTIVE" ∧
          (h.expiration_date = none ∨
            ∃ e, h.expiration_date = some e ∧ 100 < e)) :=
  ⟨by decide,
   c10_only_active_holds_suppress 100 _ _ _ (by decide)⟩

/-- Claim C1: a category is attempted for deletion only if the scanner
reported it expired and no active hold named it at filter time; hence the
active-hold categories and the deletion-outcome categories are disjoint. -/
theorem c1_hold_deletion_disjoint (now : Nat) (holds : List LegalHold)
    (expired : List (String × ExpirationRecord))
    (store : String → DeletionStoreResult) (t : String) :
    (t ∈ (execute_data_deletion store
            (check_legal_holds now holds expired)).map Prod.fst →
      t ∈ expired.map Prod.fst ∧
        ∀ h ∈ activeHoldQuery now holds, h.table_name ≠ t) ∧
    (∀ h ∈ activeHoldQuery now holds,
      h.table_name ∉ (execute_data_deletion store
        (check_legal_holds now holds expired)).map Prod.fst) := by
  have hk := execute_keys store (check_legal_holds now holds expired)
  constructor
  · intro ht
    rw [hk] at ht
    rcases List.mem_map.mp ht with ⟨p, hp, hpt⟩
    rcases List.mem_filter.mp hp with ⟨hpe, hpred⟩
    refine ⟨List.mem_map.mpr ⟨p, hpe, hpt⟩, ?_⟩
    intro h hh heq
    rw [Bool.not_eq_true', List.any_eq_false] at hpred
    have := hpred h hh
    rw [heq, hpt] at this
    simp at this
  · intro h hh ht
    rw [hk] at ht
    rcases List.mem_map.mp ht with ⟨p, hp, hpt⟩
    rcases List.mem_filter.mp hp with ⟨_, hpred⟩
    rw [Bool.not_eq_true', List.any_eq_false] at hpred
    have := hpred h hh
    rw [hpt] at this
    simp at this

/-- Witness for C1: with an active hold on user_profiles, session_data is
deleted and shown to have been expired and hold-free. -/
theorem c1_hold_deletion_witness :
    ("session_data" ∈ (execute_data_deletion
        (fun _ => DeletionStoreResult.counts 3 0)
        (check_legal_holds 50
          [{ table_name := "user_profiles", record_id := 1,
             hold_reason := "litigation", created_by := "counsel",
             created_at := 0, status := "ACTIVE", expiration_date := none }]
          [("session_data",
            ({ count := 3, oldest_record := some 1, newest_expired := some 2,
               retention_days := 30 } : ExpirationRecord)),
           ("user_profiles",
            ({ count := 5, oldest_record := none, newest_expired := none,
               retention_days := 1095 } : ExpirationRecord))])).map Prod.fst) ∧
    ("session_data" ∈
      ([("session_data",
            ({ count := 3, oldest_record := some 1, newest_expired := some 2,
               retention_days := 30 } : ExpirationRecord)),
        ("user_profiles",
            ({ count := 5, oldest_record := none, newest_expired := none,
               retention_days := 1095 } : ExpirationRecord))]).map Prod.fst ∧
      ∀ h ∈ activeHoldQuery 50
          [{ table_name := "user_profiles", record_id := 1,
             hold_reason := "litigation", created_by := "counsel",
             created_at := 0, status := "ACTIVE", expiration_date := none }],
        h.table_name ≠ "session_data") :=
  ⟨by decide,
   (c1_hold_deletion_disjoint 50 _ _ (fun _ => DeletionStoreResult.counts 3 0)
      "session_data").1 (by decide)⟩

/-- Counterexample to C2 as stated: with the anonymization UPDATE for
user_profiles raising an error, the failure is recorded, yet user_profiles
still appears in the deletion manifest's table list and is still processed
by the deletion stage of the same run — the failed category is not
excluded. -/
theorem c2_failed_anonymization_counterexample :
    (("user_profiles",
        ({ anonymized := false, fields := [],
           error := some "connection reset" } : AnonymizationOutcome)) ∈
      anonymize_before_deletion anonymization_config
        (fun _ => some "connection reset")
        [("user_profiles",
          ({ count := 5, oldest_record := none, newest_expired := none,
             retention_days := 1095 } : ExpirationRecord))]) ∧
    ("user_profiles" ∈ (execute_data_deletion
        (fun _ => DeletionStoreResult.counts 5 0)
        [("user_profiles",
          ({ count := 5, oldest_record := none, newest_expired := none,
             retention_days := 1095 } : ExpirationRecord))]).map Prod.fst) ∧
    ("user_profiles" ∈ ((create_deletion_manifest 20 7
        [("user_profiles",
          ({ count := 5, oldest_record := none, newest_expired := none,
             retention_days := 1095 } : ExpirationRecord))]
        (anonymize_before_deletion anonymization_config
          (fun _ => some "connection reset")
          [("user_profiles",
            ({ count := 5, oldest_record := none, newest_expired := none,
               retention_days := 1095 } : ExpirationRecord))])).tables_affected.map
        (fun en => en.table_name))) := by decide

/-- Amended claim C2: a per-category anonymization failure is recorded as
{anonymized: false, error} for that category only, and unrelated categories
are unaffected by it; however the failed category is NOT excluded — it still
appears in the deletion manifest and is still processed by the deletion
stage of the same run. -/
theorem c2_failed_anonymization_amended
    (cfg : List (String × List String)) (upd upd2 : String → Option String)
    (filtered : List (String × ExpirationRecord))
    (store : String → DeletionStoreResult) (mnow mid : Nat)
    (t : String) (fs : List String) (e : String)
    (hcfg : cfg.lookup t = some fs) (hfs : fs ≠ [])
    (he : upd t = some e) (ht : t ∈ filtered.map Prod.fst)
    (hagree : ∀ u, u ≠ t → upd u = upd2 u) :
    ((t, ({ anonymized := false, fields := [],
            error := some e } : AnonymizationOutcome)) ∈
      anonymize_before_deletion cfg upd filtered) ∧
    (∀ q : String × ExpirationRecord, q.1 ≠ t →
      anonEntry cfg upd q = anonEntry cfg upd2 q) ∧
    (t ∈ (execute_data_deletion store filtered).map Prod.fst) ∧
    (t ∈ ((create_deletion_manifest mnow mid filtered
        (anonymize_before_deletion cfg upd filtered)).tables_affected.map
        (fun en => en.table_name))) := by
  rcases List.mem_map.mp ht with ⟨p, hpmem, hpt⟩
  refine ⟨?_, ?_, ?_, ?_⟩
  · refine List.mem_filterMap.mpr ⟨p, hpmem, ?_⟩
    unfold anonEntry
    rw [hpt, hcfg, he]
    have hne : fs.isEmpty = false := by
      cases fs with
      | nil => exact absurd rfl hfs
      | cons a l => rfl
    simp [hne]
  · intro q hq
    unfold anonEntry
    rw [hagree q.1 hq]
  · rw [execute_keys]
    exact ht
  · rw [manifest_table_names]
    exact ht

/-- Witness for the amended C2 at a concrete failing run. -/
theorem c2_failed_anonymization_witness :
    (anonymization_config.lookup "user_profiles" =
        some ["email", "first_name", "last_name", "phone", "address"]) ∧
    ((["email", "first_name", "last_name", "phone", "address"] :
        List String) ≠ []) ∧
    ("user_profiles" ∈
      ([("user_profiles",
          ({ count := 5, oldest_record := none, newest_expired := none,
             retention_days := 1095 } : ExpirationRecord))]).map Prod.fst) ∧
    ((("user_profiles",
        ({ anonymized := false, fields := [],
           error := some "boom" } : AnonymizationOutcome)) ∈
      anonymize_before_deletion anonymization_config (fun _ => some "boom")
        [("user_profiles",
          ({ count := 5, oldest_record := none, newest_expired := none,
             retention_days := 1095 } : ExpirationRecord))]) ∧
    (∀ q : String × ExpirationRecord, q.1 ≠ "user_profiles" →
      anonEntry anonymization_config (fun _ => some "boom") q =
        anonEntry anonymization_config
          (fun u => if u = "user_profiles" then none else some "boom") q) ∧
    ("user_profiles" ∈ (execute_data_deletion
        (fun _ => DeletionStoreResult.counts 5 0)
        [("user_profiles",
          ({ count := 5, oldest_record := none, newest_expired := none,
             retention_days := 1095 } : ExpirationRecord))]).map Prod.fst) ∧
    ("user_profiles" ∈ ((create_deletion_manifest 20 7
        [("user_profiles",
          ({ count := 5, oldest_record := none, newest_expired := none,
             retention_days := 1095 } : ExpirationRecord))]
        (anonymize_before_deletion anonymization_config (fun _ => some "boom")
          [("user_profiles",
            ({ count := 5, oldest_record := none, newest_expired := none,
               retention_days := 1095 } : ExpirationRecord))])).tables_affected.map
        (fun en => en.table_name)))) :=
  ⟨by decide, by decide, by decide,
   c2_failed_anonymization_amended anonymization_config
     (fun _ => some "boom")
     (fun u => if u = "user_profiles" then none else some "boom")
     [("user_profiles",
       ({ count := 5, oldest_record := none, newest_expired := none,
          retention_days := 1095 } : ExpirationRecord))]
     (fun _ => DeletionStoreResult.counts 5 0) 20 7
     "user_profiles" ["email", "first_name", "last_name", "phone", "address"]
     "boom" (by decide) (by decide) rfl (by decide)
     (fun u hu => by simp [hu])⟩

/-- Claim C3: a failed legal-hold lookup aborts the run before manifest
creation — `check_legal_holds` has no handler around the hold query, so the
task fails and no downstream task runs: nothing is persisted and no deletion
is executed for any category. -/
theorem c3_hold_lookup_failure_aborts (inp : PipelineInput) (e : String)
    (he : inp.holdLookup = Except.error e) :
    (runPipeline inp).persistedManifests = [] ∧
    (runPipeline inp).persistedReports = [] ∧
    (runPipeline inp).deletionsExecuted = [] ∧
    (runPipeline inp).failed = some e := by
  unfold runPipeline
  rw [he]
  exact ⟨rfl, rfl, rfl, rfl⟩

/-- Witness for C3: Scenario E, a simulated hold-store outage. -/
theorem c3_hold_lookup_failure_witness :
    ((({ db := fun _ => Except.ok [0], policies := retention_policies,
         scanClocks := fun _ => 100, holdLookup := Except.error "store outage",
         holdNow := 100, anonCfg := anonymization_config,
         anonUpd := fun _ => none, manifestNow := 100, manifestId := 1,
         execStore := fun _ => DeletionStoreResult.counts 0 0,
         updateNow := 100, reportNow := 100 } : PipelineInput).holdLookup =
       Except.error "store outage") ∧
    ((runPipeline
        { db := fun _ => Except.ok [0], policies := retention_policies,
          scanClocks := fun _ => 100, holdLookup := Except.error "store outage",
          holdNow := 100, anonCfg := anonymization_config,
          anonUpd := fun _ => none, manifestNow := 100, manifestId := 1,
          execStore := fun _ => DeletionStoreResult.counts 0 0,
          updateNow := 100, reportNow := 100 }).persistedManifests = [] ∧
     (runPipeline
        { db := fun _ => Except.ok [0], policies := retention_policies,
          scanClocks := fun _ => 100, holdLookup := Except.error "store outage",
          holdNow := 100, anonCfg := anonymization_config,
          anonUpd := fun _ => none, manifestNow := 100, manifestId := 1,
          execStore := fun _ => DeletionStoreResult.counts 0 0,
          updateNow := 100, reportNow := 100 }).persistedReports = [] ∧
     (runPipeline
        { db := fun _ => Except.ok [0], policies := retention_policies,
          scanClocks := fun _ => 100, holdLookup := Except.error "store outage",
          holdNow := 100, anonCfg := anonymization_config,
          anonUpd := fun _ => none, manifestNow := 100, manifestId := 1,
          execStore := fun _ => DeletionStoreResult.counts 0 0,
          updateNow := 100, reportNow := 100 }).deletionsExecuted = [] ∧
     (runPipeline
        { db := fun _ => Except.ok [0], policies := retention_policies,
          scanClocks := fun _ => 100, holdLookup := Except.error "store outage",
          holdNow := 100, anonCfg := anonymization_config,
          anonUpd := fun _ => none, manifestNow := 100, manifestId := 1,
          execStore := fun _ => DeletionStoreResult.counts 0 0,
          updateNow := 100, reportNow := 100 }).failed = some "store outage")) :=
  ⟨rfl, c3_hold_lookup_failure_aborts _ "store outage" rfl⟩

/-- Counterexample to C7 as stated: the scan is not invariant under
replacing each query's clock reading by the run-start reading, because each
SQL statement embeds its own NOW().  Two tables holding the same single
record, scanned under drifting per-query clocks, disagree with the
single-timestamp scan. -/
theorem c7_single_timestamp_counterexample :
    identify_expired_data (fun _ => Except.ok [0])
        (fun i => if i = 0 then 20 else 5) [("a", 10), ("b", 10)] ≠
      identify_expired_data (fun _ => Except.ok [0])
        (fun _ => 20) [("a", 10), ("b", 10)] := by decide

/-- The scan depends only on the clock reading of each query it issues. -/
theorem scanPolicies_clock_congr (db : String → Except String (List Nat)) :
    ∀ (ps : List (String × Nat)) (clocks clocks2 : Nat → Nat) (i : Nat),
      (∀ j, i ≤ j → j < i + ps.length → clocks j = clocks2 j) →
      scanPolicies db clocks i ps = scanPolicies db clocks2 i ps := by
  intro ps
  induction ps with
  | nil => intro clocks clocks2 i _; rfl
  | cons p ps ih =>
    intro clocks clocks2 i hag
    obtain ⟨t, r⟩ := p
    have h0 : clocks i = clocks2 i := hag i le_rfl (by simp)
    have htail := ih clocks clocks2 (i + 1)
      (fun j hj1 hj2 => hag j (by omega) (by simp at hj2 ⊢; omega))
    cases hdb : db t with
    | error msg => simp [scanPolicies, hdb, htail]
    | ok rows =>
      cases hscan : scanTable rows (clocks2 i) r with
      | some rec => simp [scanPolicies, hdb, h0, hscan, htail]
      | none => simp [scanPolicies, hdb, h0, hscan, htail]

/-- Amended claim C7: no single run-start timestamp is threaded through the
run; instead every SQL statement reads its own NOW(), so the scan's result
is determined by the per-query clock readings (the j-th policy's query uses
reading j), and only within one query are all records compared against a
single time value. -/
theorem c7_per_query_clock_amended (db : String → Except String (List Nat))
    (policies : List (String × Nat)) (clocks clocks2 : Nat → Nat)
    (hag : ∀ j, j < policies.length → clocks j = clocks2 j) :
    identify_expired_data db clocks policies =
      identify_expired_data db clocks2 policies ∧
    ∀ (rows : List Nat) (now r : Nat) (rec : ExpirationRecord),
      scanTable rows now r = some rec →
        rec.count = (rows.filter (fun c => decide (c + r < now))).length := by
  constructor
  · exact scanPolicies_clock_congr db policies clocks clocks2 0
      (fun j hj1 hj2 => hag j (by omega))
  · intro rows now r rec hrec
    simp only [scanTable] at hrec
    split at hrec
    · cases hrec
      rfl
    · exact Option.noConfusion hrec

/-- Witness for the amended C7 at concrete drifting clocks that agree on the
two queries the scan issues. -/
theorem c7_per_query_clock_witness :
    (∀ j, j < ([("a", 10), ("b", 10)] : List (String × Nat)).length →
      (fun k => if k < 2 then 20 else 0) j =
        (fun k => if k < 2 then 20 else 99) j) ∧
    (identify_expired_data (fun _ => Except.ok [0])
        (fun k => if k < 2 then 20 else 0) [("a", 10), ("b", 10)] =
      identify_expired_data (fun _ => Except.ok [0])
        (fun k => if k < 2 then 20 else 99) [("a", 10), ("b", 10)] ∧
    ∀ (rows : List Nat) (now r : Nat) (rec : ExpirationRecord),
      scanTable rows now r = some rec →
        rec.count = (rows.filter (fun c => decide (c + r < now))).length) :=
  ⟨by decide,
   c7_per_query_clock_amended (fun _ => Except.ok [0]) [("a", 10), ("b", 10)]
     (fun k => if k < 2 then 20 else 0) (fun k => if k < 2 then 20 else 99)
     (by decide)⟩

end DataRetention
